import Mathlib

/-!
Shallow embedding of the provider-fallback + dual-layer cache core of the
warrior-ens-api server (src/index.ts), together with models of the lookup
route handlers, the batch endpoint and the WebSocket heartbeat/broadcast
loop. Asynchronous JavaScript is modelled by explicit state passing; the
`Promise.allSettled` concurrency of the batch endpoint is linearised in
request order (the cache is the only shared state the sub-operations touch).
-/

namespace WarriorENS

/-! ### Provider rotation (class ProviderManager, src/index.ts lines 61-118)

`executeWithFallback` loops `attempt = 0 .. maxRetries-1`; each iteration
calls the operation on the provider at `currentIndex`.  The operation is
modelled as a function of the attempt number and the provider index, which
returns either a result or the thrown error's message. -/

structure RotationState where
  currentIndex : Nat
  failureCount : Nat → Nat

/-- `Map.set` on the failure-count map, as a function update. -/
def setCount (f : Nat → Nat) (k v : Nat) : Nat → Nat :=
  fun i => if i = k then v else f i

/-- Outcome of one `executeWithFallback` call: the returned value or the
thrown error message, the rotation state afterwards, and how many attempts
were made. -/
structure ProvOutcome (α : Type) where
  result : Except String α
  state : RotationState
  attempts : Nat

/-- `lastError?.message` after the loop: `lastError` is `null` only when the
loop body never ran, in which case JS interpolates the string "undefined". -/
def lastErrorMessage : Option String → String
  | none => "undefined"
  | some m => m

/-- The error thrown at line 108:
`All providers failed after ${maxRetries} attempts: ${lastError?.message}`. -/
def exhaustedMessage (maxRetries : Nat) (le : Option String) : String :=
  "All providers failed after " ++ toString maxRetries ++ " attempts: " ++
    lastErrorMessage le

/-- Rotation state after one failed attempt (lines 96-104): the current
endpoint's failure counter is incremented and the cursor advances to
`(index + 1) % providers.length`. -/
def failState (n : Nat) (st : RotationState) : RotationState :=
  ⟨(st.currentIndex + 1) % n,
   setCount st.failureCount st.currentIndex (st.failureCount st.currentIndex + 1)⟩

/-- Rotation state after a successful attempt (line 89): the current
endpoint's failure counter is reset to 0; the cursor is left untouched. -/
def succState (st : RotationState) : RotationState :=
  ⟨st.currentIndex, setCount st.failureCount st.currentIndex 0⟩

/-- The retry loop of `executeWithFallback` (lines 82-108).  `fuel` is the
number of attempts still allowed, `attempt` the number already made, `le`
the last error seen. -/
def ewfGo (n maxRetries : Nat) (op : Nat → Nat → Except String α) :
    Nat → Nat → Option String → RotationState → ProvOutcome α
  | 0, attempt, le, st => ⟨.error (exhaustedMessage maxRetries le), st, attempt⟩
  | fuel + 1, attempt, _le, st =>
    match op attempt st.currentIndex with
    | .ok v => ⟨.ok v, succState st, attempt + 1⟩
    | .error e => ewfGo n maxRetries op fuel (attempt + 1) (some e) (failState n st)

/-- `ProviderManager.executeWithFallback(operation, maxRetries = 3)`
(lines 76-109), for a manager with `n` providers in state `st`. -/
def executeWithFallback (n : Nat) (op : Nat → Nat → Except String α)
    (maxRetries : Nat) (st : RotationState) : ProvOutcome α :=
  ewfGo n maxRetries op maxRetries 0 none st

/-! ### Dual-layer cache (class CacheManager, src/index.ts lines 126-245)

The process-local tier (NodeCache) is a map from keys to a value plus the
TTL it was stored with; `stdTTL = CONFIG.CACHE_TTL = 300` applies when `set`
is called without a TTL.  The persistent tier (Redis) is modelled by its
observable behaviour for the one call the operation makes: `redisGetB key`
is what `redis.get(key)` does (throws, or returns a value or nothing), and
the `redisOk` flag passed to `set` is whether the `redis.setex`/`redis.set`
call succeeds.  `JSON.parse ∘ JSON.stringify` on the stored records is the
identity and the serialized form of a record is never the empty string, so
the truthiness test `if (redisValue)` at line 166 is a presence test. -/

def CONFIG_CACHE_TTL : Nat := 300

structure MemEntry (V : Type) where
  value : V
  ttl : Nat
deriving DecidableEq

structure CacheState (V : Type) where
  memory : String → Option (MemEntry V)
  redisConfigured : Bool
  redisGetB : String → Except Unit (Option V)
  hits : Nat
  misses : Nat
  sets : Nat

/-- Outcome of `CacheManager.get`: the returned value, the cache state
afterwards, and whether the persistent tier was contacted. -/
structure GetOutcome (V : Type) where
  value : Option V
  state : CacheState V
  redisTouched : Bool

/-- `CacheManager.get(key)` (lines 154-182): memory tier first (a hit
returns immediately without touching Redis); otherwise Redis if configured,
promoting a Redis hit into the memory tier (line 170, default TTL) before
returning; a Redis error is caught and logged (line 176) and falls through,
like a Redis miss, to `misses++; return null`. -/
def CacheManager.get (st : CacheState V) (key : String) : GetOutcome V :=
  match st.memory key with
  | some entry => ⟨some entry.value, { st with hits := st.hits + 1 }, false⟩
  | none =>
    if st.redisConfigured then
      match st.redisGetB key with
      | .ok (some v) =>
        ⟨some v,
         { st with
            memory := fun k => if k = key then some ⟨v, CONFIG_CACHE_TTL⟩ else st.memory k,
            hits := st.hits + 1 },
         true⟩
      | .ok none => ⟨none, { st with misses := st.misses + 1 }, true⟩
      | .error _ => ⟨none, { st with misses := st.misses + 1 }, true⟩
    else ⟨none, { st with misses := st.misses + 1 }, false⟩

/-- The persistent-tier write performed by `CacheManager.set`:
`skipped` when no Redis client is configured, `failed` when the Redis call
threw (the error is caught and logged at lines 197-199), otherwise the
command that was issued — `setex` with a TTL, or a plain `set` with no
expiry at all when the TTL argument is absent (or `0`, which is falsy). -/
inductive RedisWrite (V : Type) where
  | skipped : RedisWrite V
  | failed : RedisWrite V
  | withTtl (key : String) (ttl : Nat) (value : V) : RedisWrite V
  | noTtl (key : String) (value : V) : RedisWrite V
deriving DecidableEq

structure SetOutcome (V : Type) where
  state : CacheState V
  redisWrite : RedisWrite V

/-- `CacheManager.set(key, value, ttl?)` (lines 184-203): the memory write
always happens (with `stdTTL` when `ttl` is absent), the best-effort Redis
write follows, and `sets` is incremented; no failure is ever propagated. -/
def CacheManager.set (st : CacheState V) (key : String) (v : V) (ttl : Option Nat)
    (redisOk : Bool) : SetOutcome V :=
  let mem := fun k => if k = key then some ⟨v, Option.getD ttl CONFIG_CACHE_TTL⟩ else st.memory k
  let w : RedisWrite V :=
    if st.redisConfigured then
      if redisOk then
        match ttl with
        | some t => if t = 0 then .noTtl key v else .withTtl key t v
        | none => .noTtl key v
      else .failed
    else .skipped
  ⟨{ st with memory := mem, sets := st.sets + 1 }, w⟩

structure StatsView where
  hits : Nat
  misses : Nat
  sets : Nat
  hitRate : String
deriving DecidableEq

/-- Two-digit zero-padded decimal fraction, as `toFixed(2)` renders it. -/
def twoDigits (n : Nat) : String :=
  (if n < 10 then "0" else "") ++ toString n

/-- `((hits / (hits + misses)) * 100).toFixed(2)` (lines 228-230), modelled
in exact arithmetic: the percentage in hundredths, rounded half-up
(`(20000 h + s) / (2 s)` is `round (10000 h / s)`).  On the counter values
the claims exercise, the JavaScript double computation is exact, so the two
agree there. -/
def hitRateScaled (hits misses : Nat) : Nat :=
  (20000 * hits + (hits + misses)) / (2 * (hits + misses))

def hitRateBody (hits misses : Nat) : String :=
  if 0 < hits + misses then
    toString (hitRateScaled hits misses / 100) ++ "." ++
      twoDigits (hitRateScaled hits misses % 100)
  else "0.00"

/-- `CacheManager.getStats()` (lines 227-237); `memoryKeys` is omitted. -/
def CacheManager.getStats (st : CacheState V) : StatsView :=
  ⟨st.hits, st.misses, st.sets, hitRateBody st.hits st.misses ++ "%"⟩

/-! ### Input validation and the lookup route handlers (lines 328-338 and
429-498).  Each handler is a function of the cache state, the raw path
parameter, the outcome of the `executeWithFallback` call it would make on a
cache miss (`Except.error` = the "All providers failed ..." error after
exhaustion; `Except.ok none` = the provider returned `null`), the current
timestamp string, and whether the Redis write succeeds.  An error thrown by
`executeWithFallback` is a plain `Error` with neither `statusCode` nor
`isOperational`, so the error-handler middleware (lines 356-373) renders it
as status 500 with body message "Internal server error"; `createError`
failures keep their own message and status. -/

def strToLower (s : String) : String :=
  ⟨s.data.map Char.toLower⟩

def strTrim (s : String) : String :=
  ⟨((s.data.dropWhile Char.isWhitespace).reverse.dropWhile Char.isWhitespace).reverse⟩

/-- `input.trim().toLowerCase()` (lines 336-338), over the character list
(the inputs of interest are ASCII, where JS and Lean case-folding and
whitespace agree). -/
def sanitizeInput (s : String) : String :=
  strToLower (strTrim s)

def ensLabelChar (c : Char) : Bool :=
  c.isLower || c.isDigit || c = '-'

/-- `/^[a-z0-9-]+\.eth$/.test(name.toLowerCase())` (lines 328-330): a
nonempty run of `[a-z0-9-]` followed by the literal `.eth`. -/
def isValidENSName (name : String) : Bool :=
  let l := (strToLower name).data
  decide (4 < l.length) && (l.drop (l.length - 4) == ['.', 'e', 't', 'h']) &&
    (l.take (l.length - 4)).all ensLabelChar

def isHexLowerDigit (c : Char) : Bool :=
  c.isDigit || ('a' ≤ c && c ≤ 'f')

/-- `ethers.isAddress` (external library, line 333).  The handlers apply it
only to `sanitizeInput` output, which is lowercase, and on lowercase
strings `ethers.isAddress` accepts exactly `0x` followed by 40 hex digits
(its EIP-55 checksum branch is reachable only for mixed-case input). -/
def isValidAddress (s : String) : Bool :=
  decide (s.data.length = 42) && (s.data.take 2 == ['0', 'x']) &&
    (s.data.drop 2).all isHexLowerDigit

/-- A cached / returned lookup record: `{name, address, timestamp?}` from
the resolve paths or `{address, name, timestamp?}` from the reverse paths.
The single-operation endpoints set `timestamp`; the batch path builds its
records without one. -/
inductive EntryVal where
  | resolveE (name : String) (address : Option String) (timestamp : Option String)
  | reverseE (address : String) (name : Option String) (timestamp : Option String)
deriving DecidableEq

/-- What the route sends: a JSON payload with its `cached` flag, or an
error response with an HTTP status and body message. -/
inductive ApiResponse where
  | payload (body : EntryVal) (cached : Bool)
  | failure (status : Nat) (message : String)
deriving DecidableEq

structure RouteOutcome where
  response : ApiResponse
  cache : CacheState EntryVal
  redisWrite : Option (RedisWrite EntryVal)

/-- `name || null` (line 488): JS `||` coerces the falsy empty string to
null as well. -/
def jsOrNull : Option String → Option String
  | none => none
  | some s => if s = "" then none else some s

/-- `GET /resolve/:name` (lines 429-464). -/
def resolveHandler (st : CacheState EntryVal) (raw : String)
    (upstream : Except String (Option String)) (now : String) (redisOk : Bool) :
    RouteOutcome :=
  let name := sanitizeInput raw
  if !isValidENSName name then ⟨.failure 400 "Invalid ENS name format", st, none⟩
  else
    let g := CacheManager.get st ("resolve:" ++ name)
    match g.value with
    | some v => ⟨.payload v true, g.state, none⟩
    | none =>
      match upstream with
      | .error _ => ⟨.failure 500 "Internal server error", g.state, none⟩
      | .ok none => ⟨.failure 404 "ENS name not found", g.state, none⟩
      | .ok (some addr) =>
        if addr = "" then ⟨.failure 404 "ENS name not found", g.state, none⟩
        else
          let so := CacheManager.set g.state ("resolve:" ++ name)
            (EntryVal.resolveE name (some addr) (some now)) none redisOk
          ⟨.payload (EntryVal.resolveE name (some addr) (some now)) false,
           so.state, some so.redisWrite⟩

/-- `GET /reverse/:address` (lines 467-498). -/
def reverseHandler (st : CacheState EntryVal) (raw : String)
    (upstream : Except String (Option String)) (now : String) (redisOk : Bool) :
    RouteOutcome :=
  let addr := sanitizeInput raw
  if !isValidAddress addr then ⟨.failure 400 "Invalid Ethereum address", st, none⟩
  else
    let g := CacheManager.get st ("reverse:" ++ addr)
    match g.value with
    | some v => ⟨.payload v true, g.state, none⟩
    | none =>
      match upstream with
      | .error _ => ⟨.failure 500 "Internal server error", g.state, none⟩
      | .ok nm =>
        let so := CacheManager.set g.state ("reverse:" ++ addr)
          (EntryVal.reverseE addr (jsOrNull nm) (some now)) none redisOk
        ⟨.payload (EntryVal.reverseE addr (jsOrNull nm) (some now)) false,
         so.state, some so.redisWrite⟩

/-! ### Batch endpoint (POST /batch, lines 597-656).  Each sub-operation
carries the outcome its `executeWithFallback` call would have; the
`Promise.allSettled` execution is linearised in request order (the cache is
the only state the sub-operations share). -/

structure BatchStepOutcome where
  result : Except String EntryVal
  cache : CacheState EntryVal
  redisWrite : Option (RedisWrite EntryVal)

/-- A `resolve` sub-operation of the batch body (lines 611-624): no input
validation, no null-address check — the `{name, address}` record is built
and cached whatever the provider returned. -/
def batchResolveOp (st : CacheState EntryVal) (raw : String)
    (upstream : Except String (Option String)) (redisOk : Bool) : BatchStepOutcome :=
  let name := sanitizeInput raw
  let g := CacheManager.get st ("resolve:" ++ name)
  match g.value with
  | some v => ⟨.ok v, g.state, none⟩
  | none =>
    match upstream with
    | .error e => ⟨.error e, g.state, none⟩
    | .ok addrOpt =>
      let so := CacheManager.set g.state ("resolve:" ++ name)
        (EntryVal.resolveE name addrOpt none) none redisOk
      ⟨.ok (EntryVal.resolveE name addrOpt none), so.state, some so.redisWrite⟩

/-- A `reverse` sub-operation of the batch body (lines 625-638). -/
def batchReverseOp (st : CacheState EntryVal) (raw : String)
    (upstream : Except String (Option String)) (redisOk : Bool) : BatchStepOutcome :=
  let addr := sanitizeInput raw
  let g := CacheManager.get st ("reverse:" ++ addr)
  match g.value with
  | some v => ⟨.ok v, g.state, none⟩
  | none =>
    match upstream with
    | .error e => ⟨.error e, g.state, none⟩
    | .ok nm =>
      let so := CacheManager.set g.state ("reverse:" ++ addr)
        (EntryVal.reverseE addr nm none) none redisOk
      ⟨.ok (EntryVal.reverseE addr nm none), so.state, some so.redisWrite⟩

/-- One sub-operation of the request body, bundled with the outcome of the
`executeWithFallback` call it would make; `invalidB` is any other
`op.type`, whose promise rejects with "Invalid operation type" (line 641). -/
inductive BatchOp where
  | resolveB (name : String) (upstream : Except String (Option String))
  | reverseB (address : String) (upstream : Except String (Option String))
  | invalidB

/-- One element of the response `results` array (lines 646-651). -/
structure BatchEntry where
  index : Nat
  fulfilled : Bool
  data : Option EntryVal
  errMsg : Option String
deriving DecidableEq

def runBatchOp (st : CacheState EntryVal) (redisOk : Bool) :
    BatchOp → Except String EntryVal × CacheState EntryVal
  | .resolveB raw u =>
    ((batchResolveOp st raw u redisOk).result, (batchResolveOp st raw u redisOk).cache)
  | .reverseB raw u =>
    ((batchReverseOp st raw u redisOk).result, (batchReverseOp st raw u redisOk).cache)
  | .invalidB => (.error "Invalid operation type", st)

def runBatchOps (redisOk : Bool) :
    CacheState EntryVal → List BatchOp →
      List (Except String EntryVal) × CacheState EntryVal
  | st, [] => ([], st)
  | st, op :: rest =>
    let r := runBatchOp st redisOk op
    let rs := runBatchOps redisOk r.2 rest
    (r.1 :: rs.1, rs.2)

/-- `Promise.allSettled` entry rendering (lines 646-651): a fulfilled
sub-operation yields `{index, status: "fulfilled", data, error: null}`, a
rejected one `{index, status: "rejected", data: null, error: reason}`. -/
def toBatchEntry (i : Nat) : Except String EntryVal → BatchEntry
  | .ok v => ⟨i, true, some v, none⟩
  | .error e => ⟨i, false, none, some e⟩

def indexedEntries (i : Nat) : List (Except String EntryVal) → List BatchEntry
  | [] => []
  | r :: rs => toBatchEntry i r :: indexedEntries (i + 1) rs

structure BatchOutcome where
  response : Except (Nat × String) (List BatchEntry)
  cache : CacheState EntryVal

/-- `POST /batch` (lines 597-656): an empty (or non-array) `operations`
body and an oversize batch are rejected with a 400 before anything runs;
otherwise every sub-operation is settled and reported in request order. -/
def batchHandler (st : CacheState EntryVal) (ops : List BatchOp) (redisOk : Bool) :
    BatchOutcome :=
  if ops.length = 0 then ⟨.error (400, "Invalid batch request format"), st⟩
  else if 10 < ops.length then ⟨.error (400, "Batch size limit exceeded (max 10)"), st⟩
  else
    let r := runBatchOps redisOk st ops
    ⟨.ok (indexedEntries 0 r.1), r.2⟩

/-! ### WebSocket heartbeat and block broadcast (lines 744-828)

One connection's lifecycle, as a transition system.  `tick` is the
30-second `heartbeatInterval` callback: on an unanswered probe it clears
the interval and calls `ws.terminate()`, whose close event removes the
socket from `connectedClients` (lines 772-781 and 802-806) — modelled as
one transition; otherwise it sends a ping and resets `isAlive`.  `pong` is
the client answering a probe (lines 768-770).  `blockEvt n` is the
block-broadcast callback (lines 816-828), which sends only to sockets that
are still in `connectedClients` and in the `OPEN` ready state. -/

inductive WsEvent where
  | tick
  | pong
  | blockEvt (n : Nat)
deriving DecidableEq

structure ConnState where
  isOpen : Bool
  isAlive : Bool
  inSet : Bool
  received : List Nat
deriving DecidableEq

def wsStep (c : ConnState) : WsEvent → ConnState
  | .tick =>
    if !c.isOpen then c
    else if !c.isAlive then { c with isOpen := false, inSet := false }
    else { c with isAlive := false }
  | .pong => if c.isOpen then { c with isAlive := true } else c
  | .blockEvt n =>
    if c.inSet && c.isOpen then { c with received := c.received ++ [n] } else c

def wsRun (c : ConnState) : List WsEvent → ConnState
  | [] => c
  | e :: es => wsRun (wsStep c e) es

/-- A connection right after the welcome message: open, in the set, and
with its liveness flag freshly true (line 766). -/
def freshConn : ConnState :=
  ⟨true, true, true, []⟩

/-- A cache state with nothing stored and no Redis client configured, as at
process start without `USE_REDIS` (lines 135-152). -/
def emptyCache : CacheState EntryVal :=
  ⟨fun _ => none, false, fun _ => .ok none, 0, 0, 0⟩

end WarriorENS

namespace WarriorENS

lemma ewfGo_succ_ok {α : Type} (n maxRetries : Nat) (op : Nat → Nat → Except String α)
    (fuel attempt : Nat) (le : Option String) (st : RotationState) (v : α)
    (h : op attempt st.currentIndex = .ok v) :
    ewfGo n maxRetries op (fuel + 1) attempt le st = ⟨.ok v, succState st, attempt + 1⟩ := by
  simp only [ewfGo, h]

lemma ewfGo_succ_error {α : Type} (n maxRetries : Nat) (op : Nat → Nat → Except String α)
    (fuel attempt : Nat) (le : Option String) (st : RotationState) (e : String)
    (h : op attempt st.currentIndex = .error e) :
    ewfGo n maxRetries op (fuel + 1) attempt le st
      = ewfGo n maxRetries op fuel (attempt + 1) (some e) (failState n st) := by
  simp only [ewfGo, h]

lemma ewfGo_allFail_attempts (α : Type) (n maxRetries : Nat) (errf : Nat → Nat → String) :
    ∀ fuel attempt le st,
      (ewfGo n maxRetries (fun a i => (Except.error (errf a i) : Except String α))
        fuel attempt le st).attempts = attempt + fuel := by
  intro fuel
  induction fuel with
  | zero => intro attempt le st; rfl
  | succ k ih =>
    intro attempt le st
    rw [ewfGo_succ_error n maxRetries _ k attempt le st (errf attempt st.currentIndex) rfl]
    rw [ih (attempt + 1)]
    omega

lemma ewfGo_allFail_result (α : Type) (n maxRetries : Nat) (errf : Nat → Nat → String)
    (hn : 0 < n) :
    ∀ fuel attempt le st, st.currentIndex < n →
      (ewfGo n maxRetries (fun a i => (Except.error (errf a i) : Except String α))
          (fuel + 1) attempt le st).result
        = .error (exhaustedMessage maxRetries
            (some (errf (attempt + fuel) ((st.currentIndex + fuel) % n)))) := by
  intro fuel
  induction fuel with
  | zero =>
    intro attempt le st hci
    rw [ewfGo_succ_error n maxRetries _ 0 attempt le st (errf attempt st.currentIndex) rfl]
    show Except.error (exhaustedMessage maxRetries (some (errf attempt st.currentIndex))) = _
    rw [Nat.add_zero, Nat.add_zero, Nat.mod_eq_of_lt hci]
  | succ k ih =>
    intro attempt le st hci
    have h2 : (failState n st).currentIndex < n := Nat.mod_lt _ hn
    rw [ewfGo_succ_error n maxRetries _ (k + 1) attempt le st (errf attempt st.currentIndex) rfl]
    rw [ih (attempt + 1) _ _ h2]
    have hidx : ((st.currentIndex + 1) % n + k) % n = (st.currentIndex + (k + 1)) % n := by
      rw [Nat.mod_add_mod]
      ring_nf
    have hatt : attempt + 1 + k = attempt + (k + 1) := by omega
    simp only [failState] at hidx ⊢
    rw [hatt, hidx]

/-- C1: if the operation fails on every attempt, `executeWithFallback` with
attempt budget `maxRetries` (default 3) makes exactly `maxRetries` attempts
and then fails with the "All providers failed after N attempts: ..." error,
whose message carries the attempt count and the message of the error thrown
on the last attempt (attempt `maxRetries - 1`, against the endpoint the
cursor had rotated to). -/
theorem executeWithFallback_exhausts_after_maxAttempts (α : Type)
    (n maxRetries : Nat) (errf : Nat → Nat → String) (st : RotationState)
    (hn : 0 < n) (hci : st.currentIndex < n) (hm : 0 < maxRetries) :
    (executeWithFallback n (fun a i => (Except.error (errf a i) : Except String α))
        maxRetries st).attempts = maxRetries ∧
    (executeWithFallback n (fun a i => (Except.error (errf a i) : Except String α))
        maxRetries st).result
      = .error ("All providers failed after " ++ toString maxRetries ++ " attempts: "
          ++ errf (maxRetries - 1) ((st.currentIndex + (maxRetries - 1)) % n)) := by
  constructor
  · rw [executeWithFallback, ewfGo_allFail_attempts]
    omega
  · obtain ⟨k, rfl⟩ : ∃ k, maxRetries = k + 1 := ⟨maxRetries - 1, by omega⟩
    rw [executeWithFallback, ewfGo_allFail_result α n (k + 1) errf hn k 0 none st hci]
    simp [exhaustedMessage, lastErrorMessage]

/-- Witness for C1 at a concrete input: 4 endpoints, budget 3, every attempt
throwing the attempt number as its message. -/
theorem executeWithFallback_exhausts_after_maxAttempts_witness :
    0 < 4 ∧ (⟨0, fun _ => 0⟩ : RotationState).currentIndex < 4 ∧ 0 < 3 ∧
    ((executeWithFallback 4 (fun a _ => (Except.error (toString a) : Except String Nat))
        3 ⟨0, fun _ => 0⟩).attempts = 3 ∧
     (executeWithFallback 4 (fun a _ => (Except.error (toString a) : Except String Nat))
        3 ⟨0, fun _ => 0⟩).result
       = .error ("All providers failed after " ++ toString 3 ++ " attempts: "
           ++ toString (3 - 1))) :=
  ⟨by decide, by decide, by decide,
   executeWithFallback_exhausts_after_maxAttempts Nat 4 3 (fun a _ => toString a)
     ⟨0, fun _ => 0⟩ (by decide) (by decide) (by decide)⟩

/-- C2: inside `executeWithFallback`, a failed attempt increments the current
endpoint's failure counter by one (leaving other counters unchanged) and
advances the cursor to `(index + 1) % n` before retrying; a successful
attempt resets the current endpoint's counter to zero (other counters
unchanged), returns the result immediately, and leaves the cursor where
rotation last put it.  Concretely, with 4 endpoints starting at cursor 0
where endpoints 0 and 1 fail and endpoint 2 succeeds: the call returns the
success after 3 attempts, the cursor settles on index 2, endpoints 0 and 1
each gain one failure, and endpoint 2's count stays 0. -/
theorem executeWithFallback_rotation_policy {α : Type}
    (n maxRetries fuel a₁ a₂ : Nat) (le₁ le₂ : Option String)
    (op₁ op₂ : Nat → Nat → Except String α) (st₁ st₂ : RotationState)
    (e : String) (v : α) (j : Nat)
    (h₁ : op₁ a₁ st₁.currentIndex = .error e)
    (h₂ : op₂ a₂ st₂.currentIndex = .ok v)
    (hj₁ : j ≠ st₁.currentIndex) (hj₂ : j ≠ st₂.currentIndex) :
    (ewfGo n maxRetries op₁ (fuel + 1) a₁ le₁ st₁
       = ewfGo n maxRetries op₁ fuel (a₁ + 1) (some e) (failState n st₁) ∧
     (failState n st₁).currentIndex = (st₁.currentIndex + 1) % n ∧
     (failState n st₁).failureCount st₁.currentIndex
       = st₁.failureCount st₁.currentIndex + 1 ∧
     (failState n st₁).failureCount j = st₁.failureCount j) ∧
    (ewfGo n maxRetries op₂ (fuel + 1) a₂ le₂ st₂ = ⟨.ok v, succState st₂, a₂ + 1⟩ ∧
     (succState st₂).currentIndex = st₂.currentIndex ∧
     (succState st₂).failureCount st₂.currentIndex = 0 ∧
     (succState st₂).failureCount j = st₂.failureCount j) ∧
    ((executeWithFallback 4
        (fun _ i => if i = 2 then Except.ok "0xabc" else Except.error "provider down")
        3 ⟨0, fun _ => 0⟩).result = .ok "0xabc" ∧
     (executeWithFallback 4
        (fun _ i => if i = 2 then Except.ok "0xabc" else Except.error "provider down")
        3 ⟨0, fun _ => 0⟩).state.currentIndex = 2 ∧
     (executeWithFallback 4
        (fun _ i => if i = 2 then Except.ok "0xabc" else Except.error "provider down")
        3 ⟨0, fun _ => 0⟩).attempts = 3 ∧
     (executeWithFallback 4
        (fun _ i => if i = 2 then Except.ok "0xabc" else Except.error "provider down")
        3 ⟨0, fun _ => 0⟩).state.failureCount 0 = 1 ∧
     (executeWithFallback 4
        (fun _ i => if i = 2 then Except.ok "0xabc" else Except.error "provider down")
        3 ⟨0, fun _ => 0⟩).state.failureCount 1 = 1 ∧
     (executeWithFallback 4
        (fun _ i => if i = 2 then Except.ok "0xabc" else Except.error "provider down")
        3 ⟨0, fun _ => 0⟩).state.failureCount 2 = 0 ∧
     (executeWithFallback 4
        (fun _ i => if i = 2 then Except.ok "0xabc" else Except.error "provider down")
        3 ⟨0, fun _ => 0⟩).state.failureCount 3 = 0) := by
  refine ⟨⟨ewfGo_succ_error n maxRetries op₁ fuel a₁ le₁ st₁ e h₁, rfl, ?_, ?_⟩,
          ⟨ewfGo_succ_ok n maxRetries op₂ fuel a₂ le₂ st₂ v h₂, rfl, ?_, ?_⟩,
          rfl, rfl, rfl, rfl, rfl, rfl, rfl⟩
  · simp [failState, setCount]
  · simp [failState, setCount, hj₁]
  · simp [succState, setCount]
  · simp [succState, setCount, hj₂]

/-- Witness for C2 at concrete inputs: a failing step from cursor 0 of 4,
a succeeding step from cursor 1 of 4, and the concrete 4-endpoint run. -/
theorem executeWithFallback_rotation_policy_witness :
    ((fun _ _ => (Except.error "down" : Except String String)) 0
        (⟨0, fun _ => 0⟩ : RotationState).currentIndex = .error "down" ∧
     (fun _ _ => (Except.ok "up" : Except String String)) 0
        (⟨1, fun _ => 0⟩ : RotationState).currentIndex = .ok "up" ∧
     (3 : Nat) ≠ (⟨0, fun _ => 0⟩ : RotationState).currentIndex ∧
     (3 : Nat) ≠ (⟨1, fun _ => 0⟩ : RotationState).currentIndex) ∧
    ((ewfGo 4 3 (fun _ _ => (Except.error "down" : Except String String)) (2 + 1) 0 none
        ⟨0, fun _ => 0⟩
       = ewfGo 4 3 (fun _ _ => Except.error "down") 2 (0 + 1) (some "down")
           (failState 4 ⟨0, fun _ => 0⟩) ∧
     (failState 4 ⟨0, fun _ => 0⟩).currentIndex
       = ((⟨0, fun _ => 0⟩ : RotationState).currentIndex + 1) % 4 ∧
     (failState 4 ⟨0, fun _ => 0⟩).failureCount
         (⟨0, fun _ => 0⟩ : RotationState).currentIndex
       = (⟨0, fun _ => 0⟩ : RotationState).failureCount
           (⟨0, fun _ => 0⟩ : RotationState).currentIndex + 1 ∧
     (failState 4 ⟨0, fun _ => 0⟩).failureCount 3
       = (⟨0, fun _ => 0⟩ : RotationState).failureCount 3) ∧
    (ewfGo 4 3 (fun _ _ => (Except.ok "up" : Except String String)) (2 + 1) 0 none
        ⟨1, fun _ => 0⟩
       = ⟨.ok "up", succState ⟨1, fun _ => 0⟩, 0 + 1⟩ ∧
     (succState ⟨1, fun _ => 0⟩).currentIndex
       = (⟨1, fun _ => 0⟩ : RotationState).currentIndex ∧
     (succState ⟨1, fun _ => 0⟩).failureCount
         (⟨1, fun _ => 0⟩ : RotationState).currentIndex = 0 ∧
     (succState ⟨1, fun _ => 0⟩).failureCount 3
       = (⟨1, fun _ => 0⟩ : RotationState).failureCount 3) ∧
    ((executeWithFallback 4
        (fun _ i => if i = 2 then Except.ok "0xabc" else Except.error "provider down")
        3 ⟨0, fun _ => 0⟩).result = .ok "0xabc" ∧
     (executeWithFallback 4
        (fun _ i => if i = 2 then Except.ok "0xabc" else Except.error "provider down")
        3 ⟨0, fun _ => 0⟩).state.currentIndex = 2 ∧
     (executeWithFallback 4
        (fun _ i => if i = 2 then Except.ok "0xabc" else Except.error "provider down")
        3 ⟨0, fun _ => 0⟩).attempts = 3 ∧
     (executeWithFallback 4
        (fun _ i => if i = 2 then Except.ok "0xabc" else Except.error "provider down")
        3 ⟨0, fun _ => 0⟩).state.failureCount 0 = 1 ∧
     (executeWithFallback 4
        (fun _ i => if i = 2 then Except.ok "0xabc" else Except.error "provider down")
        3 ⟨0, fun _ => 0⟩).state.failureCount 1 = 1 ∧
     (executeWithFallback 4
        (fun _ i => if i = 2 then Except.ok "0xabc" else Except.error "provider down")
        3 ⟨0, fun _ => 0⟩).state.failureCount 2 = 0 ∧
     (executeWithFallback 4
        (fun _ i => if i = 2 then Except.ok "0xabc" else Except.error "provider down")
        3 ⟨0, fun _ => 0⟩).state.failureCount 3 = 0)) :=
  ⟨⟨rfl, rfl, by decide, by decide⟩,
   executeWithFallback_rotation_policy 4 3 2 0 0 none none
     (fun _ _ => Except.error "down") (fun _ _ => Except.ok "up")
     ⟨0, fun _ => 0⟩ ⟨1, fun _ => 0⟩ "down" "up" 3 rfl rfl (by decide) (by decide)⟩

lemma cacheGet_miss_state (V : Type) (st : CacheState V) (key : String)
    (h : (CacheManager.get st key).value = none) :
    (CacheManager.get st key).state.memory = st.memory ∧
    (CacheManager.get st key).state.hits = st.hits ∧
    (CacheManager.get st key).state.misses = st.misses + 1 ∧
    (CacheManager.get st key).state.sets = st.sets ∧
    (CacheManager.get st key).state.redisConfigured = st.redisConfigured := by
  cases hmem : st.memory key with
  | some e => simp [CacheManager.get, hmem] at h
  | none =>
    by_cases hc : st.redisConfigured = true
    · cases hg : st.redisGetB key with
      | ok o =>
        cases o with
        | some v => simp [CacheManager.get, hmem, hc, hg] at h
        | none => simp [CacheManager.get, hmem, hc, hg]
      | error u => simp [CacheManager.get, hmem, hc, hg]
    · simp [CacheManager.get, hmem, hc]

/-- C3: the cache read path.  A key present in the process-local tier is
returned immediately as a hit without touching the persistent tier; a key
absent locally but present in the persistent tier is promoted into the
local tier (with the default TTL) before being returned as a hit; when the
local tier misses and the persistent tier is unconfigured, misses, or
errors, a miss is recorded and `null` is returned. -/
theorem cacheGet_tiered_read (V : Type) (st : CacheState V) (key : String)
    (entry : MemEntry V) (w : V) :
    (st.memory key = some entry →
       (CacheManager.get st key).value = some entry.value ∧
       (CacheManager.get st key).redisTouched = false ∧
       (CacheManager.get st key).state.hits = st.hits + 1 ∧
       (CacheManager.get st key).state.misses = st.misses ∧
       (CacheManager.get st key).state.memory = st.memory) ∧
    (st.memory key = none → st.redisConfigured = true →
       st.redisGetB key = .ok (some w) →
       (CacheManager.get st key).value = some w ∧
       (CacheManager.get st key).state.memory key = some ⟨w, CONFIG_CACHE_TTL⟩ ∧
       (CacheManager.get st key).state.hits = st.hits + 1 ∧
       (CacheManager.get st key).state.misses = st.misses) ∧
    (st.memory key = none →
       (st.redisConfigured = false ∨ st.redisGetB key = .ok none ∨
        st.redisGetB key = .error ()) →
       (CacheManager.get st key).value = none ∧
       (CacheManager.get st key).state.misses = st.misses + 1 ∧
       (CacheManager.get st key).state.hits = st.hits ∧
       (CacheManager.get st key).state.memory = st.memory) := by
  refine ⟨?_, ?_, ?_⟩
  · intro hmem
    simp [CacheManager.get, hmem]
  · intro hmem hc hg
    simp [CacheManager.get, hmem, hc, hg]
  · intro hmem hd
    rcases hd with hc | hg | hg
    · simp [CacheManager.get, hmem, hc]
    · rcases Bool.eq_false_or_eq_true st.redisConfigured with hc | hc <;>
        simp [CacheManager.get, hmem, hg, hc]
    · rcases Bool.eq_false_or_eq_true st.redisConfigured with hc | hc <;>
        simp [CacheManager.get, hmem, hg, hc]

/-- Witness for C3: a local hit, a promotion from the persistent tier, and
a double miss, each on a small concrete cache. -/
theorem cacheGet_tiered_read_witness :
    ((⟨fun k => if k = "a" then some ⟨5, 60⟩ else none, false, fun _ => Except.ok none,
        0, 0, 0⟩ : CacheState Nat).memory "a" = some ⟨5, 60⟩ ∧
     (CacheManager.get
        (⟨fun k => if k = "a" then some ⟨5, 60⟩ else none, false, fun _ => Except.ok none,
          0, 0, 0⟩ : CacheState Nat) "a").value = some 5 ∧
     (CacheManager.get
        (⟨fun k => if k = "a" then some ⟨5, 60⟩ else none, false, fun _ => Except.ok none,
          0, 0, 0⟩ : CacheState Nat) "a").redisTouched = false) ∧
    ((CacheManager.get
        (⟨fun _ => none, true,
          fun k => if k = "b" then Except.ok (some 9) else Except.ok none,
          0, 0, 0⟩ : CacheState Nat) "b").value = some 9 ∧
     (CacheManager.get
        (⟨fun _ => none, true,
          fun k => if k = "b" then Except.ok (some 9) else Except.ok none,
          0, 0, 0⟩ : CacheState Nat) "b").state.memory "b" = some ⟨9, CONFIG_CACHE_TTL⟩) ∧
    ((CacheManager.get emptyCache "c").value = none ∧
     (CacheManager.get emptyCache "c").state.misses = emptyCache.misses + 1) := by
  have h₁ := (cacheGet_tiered_read Nat
      ⟨fun k => if k = "a" then some ⟨5, 60⟩ else none, false, fun _ => Except.ok none,
        0, 0, 0⟩ "a" ⟨5, 60⟩ 0).1 rfl
  have h₂ := (cacheGet_tiered_read Nat
      ⟨fun _ => none, true,
        fun k => if k = "b" then Except.ok (some 9) else Except.ok none,
        0, 0, 0⟩ "b" ⟨0, 0⟩ 9).2.1 rfl rfl rfl
  have h₃ := (cacheGet_tiered_read EntryVal emptyCache "c"
      ⟨EntryVal.resolveE "" none none, 0⟩ (EntryVal.resolveE "" none none)).2.2 rfl
      (Or.inl rfl)
  exact ⟨⟨rfl, h₁.1, h₁.2.1⟩, ⟨h₂.1, h₂.2.1⟩, ⟨h₃.1, h₃.2.1⟩⟩

/-- C4: the cache write path.  The process-local write always happens (and
`sets` is always incremented), and the state `set` produces is the same
whether the persistent-tier write succeeds or throws — the throw is logged
and swallowed (marked `failed`), never raised to the caller, so
persistent-tier loss is invisible except for the skipped write itself. -/
theorem cacheSet_swallows_persistent_failure (V : Type) (st : CacheState V)
    (key : String) (v : V) (ttl : Option Nat) :
    (CacheManager.set st key v ttl true).state = (CacheManager.set st key v ttl false).state ∧
    (CacheManager.set st key v ttl false).state.memory key
      = some ⟨v, Option.getD ttl CONFIG_CACHE_TTL⟩ ∧
    (CacheManager.set st key v ttl false).state.sets = st.sets + 1 ∧
    (st.redisConfigured = true →
       (CacheManager.set st key v ttl false).redisWrite = RedisWrite.failed) := by
  refine ⟨rfl, ?_, rfl, ?_⟩
  · simp [CacheManager.set]
  · intro hc
    simp [CacheManager.set, hc]

/-- Witness for C4 on a concrete Redis-configured cache. -/
theorem cacheSet_swallows_persistent_failure_witness :
    (CacheManager.set
        (⟨fun _ => none, true, fun _ => Except.ok none, 0, 0, 0⟩ : CacheState Nat)
        "k" 7 (some 60) true).state
      = (CacheManager.set
        (⟨fun _ => none, true, fun _ => Except.ok none, 0, 0, 0⟩ : CacheState Nat)
        "k" 7 (some 60) false).state ∧
    (CacheManager.set
        (⟨fun _ => none, true, fun _ => Except.ok none, 0, 0, 0⟩ : CacheState Nat)
        "k" 7 (some 60) false).state.memory "k"
      = some ⟨7, Option.getD (some 60) CONFIG_CACHE_TTL⟩ ∧
    (CacheManager.set
        (⟨fun _ => none, true, fun _ => Except.ok none, 0, 0, 0⟩ : CacheState Nat)
        "k" 7 (some 60) false).state.sets = 0 + 1 ∧
    ((⟨fun _ => none, true, fun _ => Except.ok none, 0, 0, 0⟩ : CacheState Nat).redisConfigured = true ∧
     (CacheManager.set
        (⟨fun _ => none, true, fun _ => Except.ok none, 0, 0, 0⟩ : CacheState Nat)
        "k" 7 (some 60) false).redisWrite = RedisWrite.failed) := by
  have h := cacheSet_swallows_persistent_failure Nat
      ⟨fun _ => none, true, fun _ => Except.ok none, 0, 0, 0⟩ "k" 7 (some 60)
  exact ⟨h.1, h.2.1, h.2.2.1, rfl, h.2.2.2 rfl⟩

/-- C5: the hit-rate statistic.  With no lookups it is the string "0.00%";
after 7 hits and 3 misses it is exactly "70.00%"; and in general it is
rendered with exactly two decimal digits and its value in hundredths of a
percent is `hits / (hits + misses)`, as a percentage, rounded half-up
(the JS double computation is exact on the counters the claims exercise). -/
theorem cacheStats_hitRate_format :
    (∀ (V : Type) (st : CacheState V), st.hits + st.misses = 0 →
       (CacheManager.getStats st).hitRate = "0.00%") ∧
    (∀ (V : Type) (st : CacheState V), st.hits = 7 → st.misses = 3 →
       (CacheManager.getStats st).hitRate = "70.00%") ∧
    (∀ (V : Type) (st : CacheState V), 0 < st.hits + st.misses →
       ∃ a b, b < 100 ∧
         (CacheManager.getStats st).hitRate = toString a ++ "." ++ twoDigits b ++ "%" ∧
         2 * (st.hits + st.misses) * (100 * a + b)
           ≤ 20000 * st.hits + (st.hits + st.misses) ∧
         20000 * st.hits + (st.hits + st.misses)
           < 2 * (st.hits + st.misses) * (100 * a + b + 1)) := by
  refine ⟨?_, ?_, ?_⟩
  · intro V st h0
    have h1 : st.hits = 0 := by omega
    have h2 : st.misses = 0 := by omega
    simp only [CacheManager.getStats, h1, h2]
    decide
  · intro V st h7 h3
    simp only [CacheManager.getStats, h7, h3]
    decide
  · intro V st hpos
    refine ⟨hitRateScaled st.hits st.misses / 100, hitRateScaled st.hits st.misses % 100,
      Nat.mod_lt _ (by norm_num), ?_, ?_, ?_⟩
    · simp only [CacheManager.getStats, hitRateBody, hpos, if_pos]
    · rw [Nat.div_add_mod (hitRateScaled st.hits st.misses) 100]
      have h1 := Nat.div_add_mod (20000 * st.hits + (st.hits + st.misses))
        (2 * (st.hits + st.misses))
      unfold hitRateScaled
      omega
    · rw [Nat.div_add_mod (hitRateScaled st.hits st.misses) 100]
      have h1 := Nat.div_add_mod (20000 * st.hits + (st.hits + st.misses))
        (2 * (st.hits + st.misses))
      have h2 : (20000 * st.hits + (st.hits + st.misses)) % (2 * (st.hits + st.misses))
          < 2 * (st.hits + st.misses) := Nat.mod_lt _ (by omega)
      rw [Nat.mul_succ]
      unfold hitRateScaled
      omega

/-- Witness for C5: the empty-counter case and the 7-hits/3-misses case. -/
theorem cacheStats_hitRate_format_witness :
    (emptyCache.hits + emptyCache.misses = 0 ∧
     (CacheManager.getStats emptyCache).hitRate = "0.00%") ∧
    ((CacheManager.getStats
        (⟨fun _ => none, false, fun _ => Except.ok none, 7, 3, 10⟩ : CacheState EntryVal)).hitRate
      = "70.00%") :=
  ⟨⟨rfl, cacheStats_hitRate_format.1 EntryVal emptyCache rfl⟩,
   cacheStats_hitRate_format.2.1 EntryVal
     ⟨fun _ => none, false, fun _ => Except.ok none, 7, 3, 10⟩ rfl rfl⟩

/-- C6: a `null` upstream result on a cache miss.  The single resolve
endpoint fails with NotFound (404) and writes nothing to either cache tier,
while the single reverse endpoint succeeds with `name: null`, writing the
`{address, name: null, timestamp}` record to the cache before returning
it with `cached: false`. -/
theorem nullUpstream_resolve_fails_reverse_succeeds
    (st₁ st₂ : CacheState EntryVal) (rawN rawA now : String) (redisOk : Bool)
    (hvn : isValidENSName (sanitizeInput rawN) = true)
    (hm₁ : (CacheManager.get st₁ ("resolve:" ++ sanitizeInput rawN)).value = none)
    (hva : isValidAddress (sanitizeInput rawA) = true)
    (hm₂ : (CacheManager.get st₂ ("reverse:" ++ sanitizeInput rawA)).value = none) :
    ((resolveHandler st₁ rawN (.ok none) now redisOk).response
        = .failure 404 "ENS name not found" ∧
     (resolveHandler st₁ rawN (.ok none) now redisOk).cache.memory = st₁.memory ∧
     (resolveHandler st₁ rawN (.ok none) now redisOk).cache.sets = st₁.sets ∧
     (resolveHandler st₁ rawN (.ok none) now redisOk).redisWrite = none) ∧
    ((reverseHandler st₂ rawA (.ok none) now redisOk).response
        = .payload (EntryVal.reverseE (sanitizeInput rawA) none (some now)) false ∧
     (reverseHandler st₂ rawA (.ok none) now redisOk).cache.memory
         ("reverse:" ++ sanitizeInput rawA)
       = some ⟨EntryVal.reverseE (sanitizeInput rawA) none (some now), CONFIG_CACHE_TTL⟩ ∧
     (reverseHandler st₂ rawA (.ok none) now redisOk).cache.sets = st₂.sets + 1) := by
  have hg₁ := cacheGet_miss_state EntryVal st₁ ("resolve:" ++ sanitizeInput rawN) hm₁
  have hg₂ := cacheGet_miss_state EntryVal st₂ ("reverse:" ++ sanitizeInput rawA) hm₂
  constructor
  · refine ⟨?_, ?_, ?_, ?_⟩ <;>
      simp [resolveHandler, hvn, hm₁, hg₁.1, hg₁.2.2.2.1]
  · refine ⟨?_, ?_, ?_⟩ <;>
      simp [reverseHandler, hva, hm₂, jsOrNull, CacheManager.set, hg₂.2.2.2.1]

/-- Witness for C6: `ghost.eth` and a concrete lowercase address against
the empty cache. -/
theorem nullUpstream_resolve_fails_reverse_succeeds_witness :
    (isValidENSName (sanitizeInput "ghost.eth") = true ∧
     (CacheManager.get emptyCache ("resolve:" ++ sanitizeInput "ghost.eth")).value = none ∧
     isValidAddress (sanitizeInput "0xd8da6bf26964af9d7eed9e03e53415d37aa96045") = true ∧
     (CacheManager.get emptyCache
        ("reverse:" ++ sanitizeInput "0xd8da6bf26964af9d7eed9e03e53415d37aa96045")).value
       = none) ∧
    (((resolveHandler emptyCache "ghost.eth" (.ok none) "t" true).response
        = .failure 404 "ENS name not found" ∧
      (resolveHandler emptyCache "ghost.eth" (.ok none) "t" true).cache.memory
        = emptyCache.memory ∧
      (resolveHandler emptyCache "ghost.eth" (.ok none) "t" true).cache.sets
        = emptyCache.sets ∧
      (resolveHandler emptyCache "ghost.eth" (.ok none) "t" true).redisWrite = none) ∧
     ((reverseHandler emptyCache "0xd8da6bf26964af9d7eed9e03e53415d37aa96045"
          (.ok none) "t" true).response
        = .payload
            (EntryVal.reverseE
              (sanitizeInput "0xd8da6bf26964af9d7eed9e03e53415d37aa96045") none (some "t"))
            false ∧
      (reverseHandler emptyCache "0xd8da6bf26964af9d7eed9e03e53415d37aa96045"
          (.ok none) "t" true).cache.memory
          ("reverse:" ++ sanitizeInput "0xd8da6bf26964af9d7eed9e03e53415d37aa96045")
        = some ⟨EntryVal.reverseE
              (sanitizeInput "0xd8da6bf26964af9d7eed9e03e53415d37aa96045") none (some "t"),
            CONFIG_CACHE_TTL⟩ ∧
      (reverseHandler emptyCache "0xd8da6bf26964af9d7eed9e03e53415d37aa96045"
          (.ok none) "t" true).cache.sets = emptyCache.sets + 1)) :=
  ⟨⟨by decide, rfl, by decide, rfl⟩,
   nullUpstream_resolve_fails_reverse_succeeds emptyCache emptyCache
     "ghost.eth" "0xd8da6bf26964af9d7eed9e03e53415d37aa96045" "t" true
     (by decide) rfl (by decide) rfl⟩

/-- C7 as frozen is refuted at a concrete input: on a resolve sub-operation
whose provider returns `null`, the batch path fulfils with
`{name, address: null}` and writes that record to the cache, while the
single resolve endpoint fails with 404 and writes nothing. -/
theorem batch_single_policy_counterexample :
    (batchResolveOp emptyCache "ghost.eth" (.ok none) true).result
      = .ok (EntryVal.resolveE "ghost.eth" none none) ∧
    (batchResolveOp emptyCache "ghost.eth" (.ok none) true).cache.memory "resolve:ghost.eth"
      = some ⟨EntryVal.resolveE "ghost.eth" none none, CONFIG_CACHE_TTL⟩ ∧
    (resolveHandler emptyCache "ghost.eth" (.ok none) "t" true).response
      = .failure 404 "ENS name not found" ∧
    (resolveHandler emptyCache "ghost.eth" (.ok none) "t" true).cache.memory
        "resolve:ghost.eth" = none ∧
    (resolveHandler emptyCache "ghost.eth" (.ok none) "t" true).cache.sets = 0 := by
  refine ⟨rfl, rfl, rfl, rfl, rfl⟩

/-- C7 (amended): each batch sub-operation reads and writes the same cache
key as its single-operation counterpart, and a cache hit returns the same
cached value in both (independently of the provider, since the upstream
outcome is universally quantified here); a reverse sub-operation caches and
returns the same address and name as the single endpoint, but without the
single endpoint's `timestamp` field; and the not-found policy differs for
resolve: the batch path fulfils with `address: null` and caches that
record where the single endpoint fails with 404 and caches nothing. -/
theorem batch_vs_single_cache_policy
    (stH stM stR : CacheState EntryVal) (rawN rawA now : String) (redisOk : Bool)
    (u : Except String (Option String)) (v : EntryVal) (nm : Option String)
    (hvn : isValidENSName (sanitizeInput rawN) = true)
    (hva : isValidAddress (sanitizeInput rawA) = true)
    (hhit : (CacheManager.get stH ("resolve:" ++ sanitizeInput rawN)).value = some v)
    (hmM : (CacheManager.get stM ("resolve:" ++ sanitizeInput rawN)).value = none)
    (hmR : (CacheManager.get stR ("reverse:" ++ sanitizeInput rawA)).value = none)
    (hnm : nm ≠ some "") :
    ((batchResolveOp stH rawN u redisOk).result = .ok v ∧
     (resolveHandler stH rawN u now redisOk).response = .payload v true ∧
     (batchResolveOp stH rawN u redisOk).cache.memory
       = (resolveHandler stH rawN u now redisOk).cache.memory) ∧
    ((batchReverseOp stR rawA (.ok nm) redisOk).result
        = .ok (EntryVal.reverseE (sanitizeInput rawA) nm none) ∧
     (reverseHandler stR rawA (.ok nm) now redisOk).response
        = .payload (EntryVal.reverseE (sanitizeInput rawA) nm (some now)) false ∧
     (batchReverseOp stR rawA (.ok nm) redisOk).cache.memory
         ("reverse:" ++ sanitizeInput rawA)
       = some ⟨EntryVal.reverseE (sanitizeInput rawA) nm none, CONFIG_CACHE_TTL⟩ ∧
     (reverseHandler stR rawA (.ok nm) now redisOk).cache.memory
         ("reverse:" ++ sanitizeInput rawA)
       = some ⟨EntryVal.reverseE (sanitizeInput rawA) nm (some now), CONFIG_CACHE_TTL⟩) ∧
    ((batchResolveOp stM rawN (.ok none) redisOk).result
        = .ok (EntryVal.resolveE (sanitizeInput rawN) none none) ∧
     (batchResolveOp stM rawN (.ok none) redisOk).cache.memory
         ("resolve:" ++ sanitizeInput rawN)
       = some ⟨EntryVal.resolveE (sanitizeInput rawN) none none, CONFIG_CACHE_TTL⟩ ∧
     (resolveHandler stM rawN (.ok none) now redisOk).response
        = .failure 404 "ENS name not found" ∧
     (resolveHandler stM rawN (.ok none) now redisOk).cache.memory = stM.memory) := by
  have hgM := cacheGet_miss_state EntryVal stM ("resolve:" ++ sanitizeInput rawN) hmM
  have hjs : jsOrNull nm = nm := by
    cases nm with
    | none => rfl
    | some s =>
      simp only [jsOrNull]
      have : ¬s = "" := fun h => hnm (by rw [h])
      simp [this]
  refine ⟨⟨?_, ?_, ?_⟩, ⟨?_, ?_, ?_, ?_⟩, ⟨?_, ?_, ?_, ?_⟩⟩
  · simp [batchResolveOp, hhit]
  · simp [resolveHandler, hvn, hhit]
  · simp [batchResolveOp, resolveHandler, hvn, hhit]
  · simp [batchReverseOp, hmR, hjs]
  · simp [reverseHandler, hva, hmR, hjs]
  · simp [batchReverseOp, hmR, CacheManager.set]
  · simp [reverseHandler, hva, hmR, hjs, CacheManager.set]
  · simp [batchResolveOp, hmM]
  · simp [batchResolveOp, hmM, CacheManager.set]
  · simp [resolveHandler, hvn, hmM]
  · simp [resolveHandler, hvn, hmM, hgM.1]

/-- Witness for C7 (amended), on concrete caches: a hit state holding a
record under the resolve key, and the empty cache for the miss cases. -/
theorem batch_vs_single_cache_policy_witness :
    (isValidENSName (sanitizeInput "ghost.eth") = true ∧
     isValidAddress (sanitizeInput "0xd8da6bf26964af9d7eed9e03e53415d37aa96045") = true ∧
     (CacheManager.get
        (⟨fun k => if k = "resolve:ghost.eth"
             then some ⟨EntryVal.resolveE "ghost.eth" (some "0x1") (some "t0"), 300⟩
             else none,
          false, fun _ => Except.ok none, 0, 0, 0⟩ : CacheState EntryVal)
        ("resolve:" ++ sanitizeInput "ghost.eth")).value
       = some (EntryVal.resolveE "ghost.eth" (some "0x1") (some "t0")) ∧
     (CacheManager.get emptyCache ("resolve:" ++ sanitizeInput "ghost.eth")).value = none ∧
     (CacheManager.get emptyCache
        ("reverse:" ++ sanitizeInput "0xd8da6bf26964af9d7eed9e03e53415d37aa96045")).value
       = none ∧
     (some "alice.eth" : Option String) ≠ some "") ∧
    ((batchResolveOp
        (⟨fun k => if k = "resolve:ghost.eth"
             then some ⟨EntryVal.resolveE "ghost.eth" (some "0x1") (some "t0"), 300⟩
             else none,
          false, fun _ => Except.ok none, 0, 0, 0⟩ : CacheState EntryVal)
        "ghost.eth" (.ok none) true).result
       = .ok (EntryVal.resolveE "ghost.eth" (some "0x1") (some "t0")) ∧
     (batchReverseOp emptyCache "0xd8da6bf26964af9d7eed9e03e53415d37aa96045"
        (.ok (some "alice.eth")) true).result
       = .ok (EntryVal.reverseE
           (sanitizeInput "0xd8da6bf26964af9d7eed9e03e53415d37aa96045")
           (some "alice.eth") none) ∧
     (batchResolveOp emptyCache "ghost.eth" (.ok none) true).result
       = .ok (EntryVal.resolveE (sanitizeInput "ghost.eth") none none) ∧
     (resolveHandler emptyCache "ghost.eth" (.ok none) "t" true).response
       = .failure 404 "ENS name not found") := by
  have h := batch_vs_single_cache_policy
    ⟨fun k => if k = "resolve:ghost.eth"
        then some ⟨EntryVal.resolveE "ghost.eth" (some "0x1") (some "t0"), 300⟩
        else none,
      false, fun _ => Except.ok none, 0, 0, 0⟩
    emptyCache emptyCache "ghost.eth" "0xd8da6bf26964af9d7eed9e03e53415d37aa96045" "t"
    true (.ok none) (EntryVal.resolveE "ghost.eth" (some "0x1") (some "t0"))
    (some "alice.eth") (by decide) (by decide) (by decide) rfl rfl (by decide)
  exact ⟨⟨by decide, by decide, by decide, rfl, rfl, by decide⟩,
    ⟨h.1.1, h.2.1.1, h.2.2.1, h.2.2.2.2.1⟩⟩

lemma indexedEntries_length (rs : List (Except String EntryVal)) :
    ∀ i, (indexedEntries i rs).length = rs.length := by
  induction rs with
  | nil => intro i; rfl
  | cons r rs ih =>
    intro i
    simp only [indexedEntries, List.length_cons, ih]

lemma indexedEntries_get (rs : List (Except String EntryVal)) :
    ∀ i j (hj : j < rs.length) (hj' : j < (indexedEntries i rs).length),
      (indexedEntries i rs).get ⟨j, hj'⟩ = toBatchEntry (i + j) (rs.get ⟨j, hj⟩) := by
  induction rs with
  | nil => intro i j hj hj'; exact absurd hj (Nat.not_lt_zero j)
  | cons r rs ih =>
    intro i j hj hj'
    cases j with
    | zero => rfl
    | succ k =>
      have hk : k < rs.length := by simpa using hj
      have hk' : k < (indexedEntries (i + 1) rs).length := by
        rw [indexedEntries_length]; exact hk
      show (indexedEntries (i + 1) rs).get ⟨k, hk'⟩ = _
      rw [ih (i + 1) k hk hk']
      have : i + 1 + k = i + (k + 1) := by omega
      rw [this]
      rfl

lemma runBatchOps_length (redisOk : Bool) (ops : List BatchOp) :
    ∀ st, (runBatchOps redisOk st ops).1.length = ops.length := by
  induction ops with
  | nil => intro st; rfl
  | cons op rest ih =>
    intro st
    simp only [runBatchOps, List.length_cons]
    rw [ih]

lemma toBatchEntry_shape (i : Nat) (r : Except String EntryVal) :
    (toBatchEntry i r).index = i ∧
    (((toBatchEntry i r).fulfilled = true ∧ (toBatchEntry i r).errMsg = none ∧
        (toBatchEntry i r).data.isSome = true) ∨
     ((toBatchEntry i r).fulfilled = false ∧ (toBatchEntry i r).data = none ∧
        (toBatchEntry i r).errMsg.isSome = true)) := by
  cases r with
  | ok v => exact ⟨rfl, Or.inl ⟨rfl, rfl, rfl⟩⟩
  | error e => exact ⟨rfl, Or.inr ⟨rfl, rfl, rfl⟩⟩

/-- C8: batch transport semantics.  A batch of 1 to 10 sub-operations
succeeds at the transport level: the response is the settled entry list,
with exactly one entry per sub-operation, the `j`-th entry carrying index
`j` and being either fulfilled (data, no error) or rejected (an error
reason, no data) — a rejection never removes the other entries.  A batch of
more than 10 sub-operations is rejected with the 400 size-limit error and
the cache is left untouched: no sub-operation runs. -/
theorem batch_transport_semantics (st : CacheState EntryVal) (ops : List BatchOp)
    (redisOk : Bool) (h1 : 1 ≤ ops.length) :
    (ops.length ≤ 10 →
       (batchHandler st ops redisOk).response
         = .ok (indexedEntries 0 (runBatchOps redisOk st ops).1) ∧
       (indexedEntries 0 (runBatchOps redisOk st ops).1).length = ops.length ∧
       (∀ j (hj : j < (indexedEntries 0 (runBatchOps redisOk st ops).1).length),
          ((indexedEntries 0 (runBatchOps redisOk st ops).1).get ⟨j, hj⟩).index = j ∧
          ((((indexedEntries 0 (runBatchOps redisOk st ops).1).get ⟨j, hj⟩).fulfilled = true ∧
            ((indexedEntries 0 (runBatchOps redisOk st ops).1).get ⟨j, hj⟩).errMsg = none ∧
            ((indexedEntries 0 (runBatchOps redisOk st ops).1).get ⟨j, hj⟩).data.isSome = true) ∨
           (((indexedEntries 0 (runBatchOps redisOk st ops).1).get ⟨j, hj⟩).fulfilled = false ∧
            ((indexedEntries 0 (runBatchOps redisOk st ops).1).get ⟨j, hj⟩).data = none ∧
            ((indexedEntries 0 (runBatchOps redisOk st ops).1).get ⟨j, hj⟩).errMsg.isSome = true)))) ∧
    (10 < ops.length →
       (batchHandler st ops redisOk).response
         = .error (400, "Batch size limit exceeded (max 10)") ∧
       (batchHandler st ops redisOk).cache = st) := by
  constructor
  · intro h10
    have h0 : ¬ops.length = 0 := by omega
    have hn10 : ¬10 < ops.length := by omega
    refine ⟨by simp [batchHandler, h0, hn10], ?_, ?_⟩
    · rw [indexedEntries_length, runBatchOps_length]
    · intro j hj
      have hj2 : j < (runBatchOps redisOk st ops).1.length := by
        rw [← indexedEntries_length _ 0]; exact hj
      rw [indexedEntries_get _ 0 j hj2 hj]
      have hsh := toBatchEntry_shape (0 + j) ((runBatchOps redisOk st ops).1.get ⟨j, hj2⟩)
      refine ⟨?_, hsh.2⟩
      rw [hsh.1]
      omega
  · intro h10
    have h0 : ¬ops.length = 0 := by omega
    constructor <;> simp [batchHandler, h0, h10]

/-- Witness for C8: a 3-operation batch whose 2nd sub-operation fails,
yielding fulfilled / rejected / fulfilled entries in order, plus an
11-operation batch rejected untouched. -/
theorem batch_transport_semantics_witness :
    (1 ≤ ([BatchOp.resolveB "alice.eth" (Except.ok (some "0x1")),
           BatchOp.resolveB "bob.eth"
             (Except.error "All providers failed after 3 attempts: boom"),
           BatchOp.reverseB "0xd8da6bf26964af9d7eed9e03e53415d37aa96045"
             (Except.ok none)] : List BatchOp).length ∧
     ([BatchOp.resolveB "alice.eth" (Except.ok (some "0x1")),
       BatchOp.resolveB "bob.eth"
         (Except.error "All providers failed after 3 attempts: boom"),
       BatchOp.reverseB "0xd8da6bf26964af9d7eed9e03e53415d37aa96045"
         (Except.ok none)] : List BatchOp).length ≤ 10) ∧
    (indexedEntries 0 (runBatchOps true emptyCache
        [BatchOp.resolveB "alice.eth" (Except.ok (some "0x1")),
         BatchOp.resolveB "bob.eth"
           (Except.error "All providers failed after 3 attempts: boom"),
         BatchOp.reverseB "0xd8da6bf26964af9d7eed9e03e53415d37aa96045"
           (Except.ok none)]).1).length
      = ([BatchOp.resolveB "alice.eth" (Except.ok (some "0x1")),
          BatchOp.resolveB "bob.eth"
            (Except.error "All providers failed after 3 attempts: boom"),
          BatchOp.reverseB "0xd8da6bf26964af9d7eed9e03e53415d37aa96045"
            (Except.ok none)] : List BatchOp).length ∧
    (batchHandler emptyCache
        [BatchOp.resolveB "alice.eth" (Except.ok (some "0x1")),
         BatchOp.resolveB "bob.eth"
           (Except.error "All providers failed after 3 attempts: boom"),
         BatchOp.reverseB "0xd8da6bf26964af9d7eed9e03e53415d37aa96045"
           (Except.ok none)] true).response
      = .ok [⟨0, true, some (EntryVal.resolveE "alice.eth" (some "0x1") none), none⟩,
             ⟨1, false, none, some "All providers failed after 3 attempts: boom"⟩,
             ⟨2, true,
              some (EntryVal.reverseE "0xd8da6bf26964af9d7eed9e03e53415d37aa96045" none none),
              none⟩] ∧
    (batchHandler emptyCache (List.replicate 11 BatchOp.invalidB) true).response
      = .error (400, "Batch size limit exceeded (max 10)") := by
  have h := (batch_transport_semantics emptyCache
      [BatchOp.resolveB "alice.eth" (Except.ok (some "0x1")),
       BatchOp.resolveB "bob.eth"
         (Except.error "All providers failed after 3 attempts: boom"),
       BatchOp.reverseB "0xd8da6bf26964af9d7eed9e03e53415d37aa96045"
         (Except.ok none)] true (by decide)).1 (by decide)
  have h2 := (batch_transport_semantics emptyCache
      (List.replicate 11 BatchOp.invalidB) true (by decide)).2 (by decide)
  exact ⟨⟨by decide, by decide⟩, h.2.1, rfl, h2.1⟩

lemma wsStep_closed_fix (c : ConnState) (e : WsEvent) (h : c.isOpen = false) :
    wsStep c e = c := by
  cases e with
  | tick => simp [wsStep, h]
  | pong => simp [wsStep, h]
  | blockEvt n => simp [wsStep, h]

lemma wsRun_closed_fix (c : ConnState) (es : List WsEvent) (h : c.isOpen = false) :
    wsRun c es = c := by
  induction es generalizing c with
  | nil => rfl
  | cons e es ih =>
    show wsRun (wsStep c e) es = c
    rw [wsStep_closed_fix c e h]
    exact ih c h

/-- C9: heartbeat and broadcast.  A terminated connection never changes
again — in particular it receives no block event and never re-enters the
connection set; the heartbeat tick that observes an unanswered probe on an
open connection terminates it and removes it from the set; the broadcast
callback does not touch a non-open connection; and a fresh subscriber that
never answers any probe is terminated by the second tick with nothing
received, and receives nothing over any subsequent event sequence. -/
theorem silent_subscriber_terminated_no_broadcasts
    (c : ConnState) (es : List WsEvent) (n : Nat) (hdead : c.isOpen = false) :
    wsStep c (.blockEvt n) = c ∧
    wsRun c es = c ∧
    (∀ d : ConnState, d.isOpen = true → d.isAlive = false →
       wsStep d .tick = { d with isOpen := false, inSet := false }) ∧
    wsRun freshConn [.tick, .tick] = ⟨false, false, false, []⟩ ∧
    (wsRun (wsRun freshConn [.tick, .tick]) es).received = [] := by
  refine ⟨wsStep_closed_fix c _ hdead, wsRun_closed_fix c es hdead, ?_, rfl, ?_⟩
  · intro d h1 h2
    simp [wsStep, h1, h2]
  · rw [show wsRun freshConn [.tick, .tick] = (⟨false, false, false, []⟩ : ConnState) from rfl,
        wsRun_closed_fix _ es rfl]

/-- Witness for C9 on a concrete terminated connection and event list. -/
theorem silent_subscriber_terminated_no_broadcasts_witness :
    (⟨false, true, true, [7]⟩ : ConnState).isOpen = false ∧
    (wsStep ⟨false, true, true, [7]⟩ (.blockEvt 9) = ⟨false, true, true, [7]⟩ ∧
     wsRun ⟨false, true, true, [7]⟩ [.blockEvt 9, .pong, .tick] = ⟨false, true, true, [7]⟩ ∧
     wsStep ⟨true, false, true, []⟩ .tick
       = { (⟨true, false, true, []⟩ : ConnState) with isOpen := false, inSet := false } ∧
     wsRun freshConn [.tick, .tick] = ⟨false, false, false, []⟩ ∧
     (wsRun (wsRun freshConn [.tick, .tick]) [.blockEvt 9, .pong, .tick]).received = []) := by
  have h := silent_subscriber_terminated_no_broadcasts
    ⟨false, true, true, [7]⟩ [.blockEvt 9, .pong, .tick] 9 rfl
  exact ⟨rfl, h.1, h.2.1, h.2.2.1 ⟨true, false, true, []⟩ rfl rfl, h.2.2.2.1, h.2.2.2.2⟩

/-- C10: a `set` without an explicit TTL stores the entry in the
process-local tier under the configured default TTL (`CACHE_TTL = 300`),
but issues a plain no-expiry `SET` to the persistent tier instead of
`SETEX`; and the lookup paths (single resolve, single reverse, batch
resolve) all call `set` without a TTL, so the persistent-tier writes they
issue are all no-expiry plain `SET`s. -/
theorem cacheSet_noTtl_persistent_never_expires (V : Type) (st : CacheState V)
    (key : String) (v : V) (stE : CacheState EntryVal)
    (rawN rawA now addr : String) (nm : Option String)
    (hc : st.redisConfigured = true)
    (hcE : stE.redisConfigured = true)
    (hvn : isValidENSName (sanitizeInput rawN) = true)
    (hva : isValidAddress (sanitizeInput rawA) = true)
    (hmN : (CacheManager.get stE ("resolve:" ++ sanitizeInput rawN)).value = none)
    (hmA : (CacheManager.get stE ("reverse:" ++ sanitizeInput rawA)).value = none)
    (haddr : addr ≠ "") :
    (CacheManager.set st key v none true).state.memory key
      = some ⟨v, CONFIG_CACHE_TTL⟩ ∧
    (CacheManager.set st key v none true).redisWrite = RedisWrite.noTtl key v ∧
    (resolveHandler stE rawN (.ok (some addr)) now true).redisWrite
      = some (RedisWrite.noTtl ("resolve:" ++ sanitizeInput rawN)
          (EntryVal.resolveE (sanitizeInput rawN) (some addr) (some now))) ∧
    (reverseHandler stE rawA (.ok nm) now true).redisWrite
      = some (RedisWrite.noTtl ("reverse:" ++ sanitizeInput rawA)
          (EntryVal.reverseE (sanitizeInput rawA) (jsOrNull nm) (some now))) ∧
    (batchResolveOp stE rawN (.ok none) true).redisWrite
      = some (RedisWrite.noTtl ("resolve:" ++ sanitizeInput rawN)
          (EntryVal.resolveE (sanitizeInput rawN) none none)) := by
  have hgN := cacheGet_miss_state EntryVal stE ("resolve:" ++ sanitizeInput rawN) hmN
  have hgA := cacheGet_miss_state EntryVal stE ("reverse:" ++ sanitizeInput rawA) hmA
  refine ⟨?_, ?_, ?_, ?_, ?_⟩
  · simp [CacheManager.set]
  · simp [CacheManager.set, hc]
  · simp [resolveHandler, hvn, hmN, haddr, CacheManager.set, hgN.2.2.2.2, hcE]
  · simp [reverseHandler, hva, hmA, CacheManager.set, hgA.2.2.2.2, hcE]
  · simp [batchResolveOp, hmN, CacheManager.set, hgN.2.2.2.2, hcE]

/-- Witness for C10 on a Redis-configured empty cache. -/
theorem cacheSet_noTtl_persistent_never_expires_witness :
    ((⟨fun _ => none, true, fun _ => Except.ok none, 0, 0, 0⟩ : CacheState Nat).redisConfigured
        = true ∧
     (⟨fun _ => none, true, fun _ => Except.ok none, 0, 0, 0⟩ : CacheState EntryVal).redisConfigured
        = true ∧
     isValidENSName (sanitizeInput "ghost.eth") = true ∧
     isValidAddress (sanitizeInput "0xd8da6bf26964af9d7eed9e03e53415d37aa96045") = true ∧
     (CacheManager.get
        (⟨fun _ => none, true, fun _ => Except.ok none, 0, 0, 0⟩ : CacheState EntryVal)
        ("resolve:" ++ sanitizeInput "ghost.eth")).value = none ∧
     (CacheManager.get
        (⟨fun _ => none, true, fun _ => Except.ok none, 0, 0, 0⟩ : CacheState EntryVal)
        ("reverse:" ++ sanitizeInput "0xd8da6bf26964af9d7eed9e03e53415d37aa96045")).value
       = none ∧
     ("0x1" : String) ≠ "") ∧
    ((CacheManager.set
        (⟨fun _ => none, true, fun _ => Except.ok none, 0, 0, 0⟩ : CacheState Nat)
        "k" 7 none true).state.memory "k" = some ⟨7, CONFIG_CACHE_TTL⟩ ∧
     (CacheManager.set
        (⟨fun _ => none, true, fun _ => Except.ok none, 0, 0, 0⟩ : CacheState Nat)
        "k" 7 none true).redisWrite = RedisWrite.noTtl "k" 7 ∧
     (resolveHandler
        (⟨fun _ => none, true, fun _ => Except.ok none, 0, 0, 0⟩ : CacheState EntryVal)
        "ghost.eth" (.ok (some "0x1")) "t" true).redisWrite
       = some (RedisWrite.noTtl ("resolve:" ++ sanitizeInput "ghost.eth")
           (EntryVal.resolveE (sanitizeInput "ghost.eth") (some "0x1") (some "t"))) ∧
     (reverseHandler
        (⟨fun _ => none, true, fun _ => Except.ok none, 0, 0, 0⟩ : CacheState EntryVal)
        "0xd8da6bf26964af9d7eed9e03e53415d37aa96045" (.ok none) "t" true).redisWrite
       = some (RedisWrite.noTtl
           ("reverse:" ++ sanitizeInput "0xd8da6bf26964af9d7eed9e03e53415d37aa96045")
           (EntryVal.reverseE
             (sanitizeInput "0xd8da6bf26964af9d7eed9e03e53415d37aa96045")
             (jsOrNull none) (some "t"))) ∧
     (batchResolveOp
        (⟨fun _ => none, true, fun _ => Except.ok none, 0, 0, 0⟩ : CacheState EntryVal)
        "ghost.eth" (.ok none) true).redisWrite
       = some (RedisWrite.noTtl ("resolve:" ++ sanitizeInput "ghost.eth")
           (EntryVal.resolveE (sanitizeInput "ghost.eth") none none))) :=
  ⟨⟨rfl, rfl, by decide, by decide, rfl, rfl, by decide⟩,
   cacheSet_noTtl_persistent_never_expires Nat
     ⟨fun _ => none, true, fun _ => Except.ok none, 0, 0, 0⟩ "k" 7
     ⟨fun _ => none, true, fun _ => Except.ok none, 0, 0, 0⟩
     "ghost.eth" "0xd8da6bf26964af9d7eed9e03e53415d37aa96045" "t" "0x1" none
     rfl rfl (by decide) (by decide) rfl rfl (by decide)⟩

end WarriorENS
